import Mathlib

/-!
Shallow embedding of the guardai repository (src/guard/scanner.py and
src/guard/clients.py), together with theorems settling the claims about it.

The external world (file system, subprocess invocations, HTTP transport,
hosted AI provider calls) is modelled by explicit parameters describing
the outcome of each external interaction; the control flow of the Python
functions is translated line by line.  A computation that lets a Python
exception escape the function being modelled is represented by the
`Except.error` constructor; a normal return is `Except.ok`.
-/

namespace GuardAI

/-! ## File-system model for scanner.py -/

/-- Outcome of accessing one path in read_files_and_generate_summary
(scanner.py lines 59-69):
* `notFile`: os.path.isfile is False (the else branch, line 68);
* `openError`: open itself raises IOError, caught at line 66 before
  anything was appended;
* `readError`: open succeeds but f.read() raises UnicodeDecodeError or
  IOError (line 65), caught at line 66 — note the header was already
  appended at line 64;
* `ok content`: open and read both succeed, f.read() = content. -/
inductive FileStatus where
  | notFile
  | openError
  | readError
  | ok (content : String)
deriving DecidableEq, Repr

/-- Model of os.path.basename on POSIX: the part after the last "/",
computed by scanning the characters left to right and restarting the
accumulator at each separator. -/
def basename (path : String) : String :=
  String.mk (path.data.foldl (fun acc c => if c = '/' then [] else acc ++ [c]) [])

/-- Model of os.path.join(dir, file) on POSIX (scanner.py line 90). -/
def joinPath (dir file : String) : String :=
  if file.startsWith "/" then file
  else if dir = "" then file
  else if dir.endsWith "/" then dir ++ file
  else dir ++ "/" ++ file

/-- One iteration of the loop body of read_files_and_generate_summary
(scanner.py lines 60-69) on accumulator acc and path.  On
`readError` the header has already been appended when the read raises,
so the header stays in the accumulator (lines 64-65 are two separate
`+=` statements inside the try block). -/
def processFile (fs : String → FileStatus) (acc path : String) : String :=
  match fs path with
  | .notFile => acc
  | .openError => acc
  | .readError => acc ++ ("\n\nFile: " ++ basename path ++ "\n")
  | .ok content => acc ++ ("\n\nFile: " ++ basename path ++ "\n") ++ content

/-- Model of read_files_and_generate_summary (scanner.py lines 53-70):
starts from the empty string and folds the loop body over the paths. -/
def read_files_and_generate_summary (fs : String → FileStatus)
    (file_paths : List String) : String :=
  file_paths.foldl (processFile fs) ""

/-- Model of generate_code_summary (scanner.py lines 86-91). -/
def generate_code_summary (fs : String → FileStatus) (directory : String)
    (changed_files : List String) : String :=
  read_files_and_generate_summary fs (changed_files.map (joinPath directory))

/-! ## Subprocess model for scanner.py -/

/-- Outcome of a subprocess.check_output invocation:
* `output`: the command ran and exited 0, producing stdout;
* `calledProcessError`: the command ran and exited nonzero, so
  check_output raises subprocess.CalledProcessError;
* `osError`: the invocation itself could not run (e.g. the executable is
  missing), so check_output raises OSError / FileNotFoundError. -/
inductive SubprocessResult where
  | output (out : String)
  | calledProcessError (returncode : Int)
  | osError (msg : String)
deriving DecidableEq, Repr

/-- Model of is_git_repo (scanner.py lines 19-31), as a function of the
outcome of the rev-parse invocation.  Only CalledProcessError is caught
(line 29); an OSError escapes the function, modelled by Except.error. -/
def is_git_repo (revParse : SubprocessResult) : Except String Bool :=
  match revParse with
  | .output _ => .ok true
  | .calledProcessError _ => .ok false
  | .osError msg => .error msg

/-- Model of get_changed_files (scanner.py lines 94-109), as a function
of the outcome of the git diff invocation.  CalledProcessError is caught
(line 107) and yields the empty list; an OSError (from os.chdir or the
invocation) escapes. -/
def get_changed_files (diff : SubprocessResult) : Except String (List String) :=
  match diff with
  | .output out => .ok (if out.trim = "" then [] else (out.trim).splitOn "\n")
  | .calledProcessError _ => .ok []
  | .osError msg => .error msg

/-! ## scan_changes and its helpers -/

/-- Python exceptions relevant to scan_changes: ValueError (the only
kind its try/except catches, scanner.py line 141) versus everything
else, which propagates. -/
inductive PyExc where
  | valueError (msg : String)
  | otherExc (msg : String)
deriving DecidableEq, Repr

/-- Python truthiness of an optional string: None and the empty string
are falsy. -/
def truthyStr : Option String → Bool
  | none => false
  | some s => s != ""

/-- Python truthiness of an optional integer: None and 0 are falsy. -/
def truthyInt : Option Int → Bool
  | none => false
  | some n => n != 0

/-- Environment of one scan_changes call: the outcome of every external
interaction it may perform. -/
structure ScanEnv where
  /-- File statuses seen by read_files_and_generate_summary. -/
  fs : String → FileStatus
  /-- Outcome of the rev-parse invocation in is_git_repo. -/
  gitRevParse : SubprocessResult
  /-- Outcome of the git diff invocation in get_changed_files. -/
  gitDiff : SubprocessResult
  /-- Outcome of get_pr_changed_files (the GitHub API calls, scanner.py
  lines 34-50): either the changed-file list or a raised exception. -/
  prFetch : Except String (List String)
  /-- Behaviour of ai_client.scan_code. -/
  scan_code : String → String

/-- Model of fetch_changed_files_from_pr (scanner.py lines 112-119): with
a falsy token it raises ValueError before any network interaction;
otherwise the GitHub API outcome decides, any API exception propagating
as a non-ValueError. -/
def fetch_changed_files_from_pr (prFetch : Except String (List String))
    (github_token : Option String) : Except PyExc (List String) :=
  if truthyStr github_token then
    match prFetch with
    | .ok files => .ok files
    | .error e => .error (.otherExc e)
  else
    .error (.valueError "GitHub token is required for scanning PR changes.")

/-- Model of fetch_changed_files_from_repo (scanner.py lines 122-129):
raises ValueError when is_git_repo returns False; an exception escaping
is_git_repo or get_changed_files propagates as a non-ValueError. -/
def fetch_changed_files_from_repo (gitRevParse gitDiff : SubprocessResult) :
    Except PyExc (List String) :=
  match is_git_repo gitRevParse with
  | .error m => .error (.otherExc m)
  | .ok false => .error (.valueError "Directory is not a valid Git repository.")
  | .ok true =>
    match get_changed_files gitDiff with
    | .ok files => .ok files
    | .error m => .error (.otherExc m)

/-- Strategy selector of scan_changes (scanner.py line 137): the Python
condition is the truthiness of repo and pr_number. -/
def usesPrStrategy (repo : Option String) (pr_number : Option Int) : Bool :=
  truthyStr repo && truthyInt pr_number

/-- Body of the try block of scan_changes (scanner.py lines 136-140). -/
def resolve_changed_files (env : ScanEnv) (repo : Option String)
    (pr_number : Option Int) (github_token : Option String) :
    Except PyExc (List String) :=
  if usesPrStrategy repo pr_number then
    fetch_changed_files_from_pr env.prFetch github_token
  else
    fetch_changed_files_from_repo env.gitRevParse env.gitDiff

/-- Model of scan_changes (scanner.py lines 132-151).  A ValueError from
resolution is caught and its message returned as the result (lines
141-143); any other exception propagates (Except.error).  An empty
resolved list short-circuits (lines 145-147); otherwise the summary is
built and handed to the backend. -/
def scan_changes (env : ScanEnv) (directory : String) (repo : Option String)
    (pr_number : Option Int) (github_token : Option String) :
    Except String String :=
  match resolve_changed_files env repo pr_number github_token with
  | .error (.valueError msg) => .ok msg
  | .error (.otherExc msg) => .error msg
  | .ok changed_files =>
    if changed_files.isEmpty then
      .ok "No changes detected in the directory."
    else
      .ok (env.scan_code (generate_code_summary env.fs directory changed_files))

/-! ## Embedding of clients.py -/

/-- JSON values, for the custom backend's payload and response bodies. -/
inductive Json where
  | null
  | bool (b : Bool)
  | num (n : Int)
  | str (s : String)
  | arr (elems : List Json)
  | obj (members : List (String × Json))

/-- Model of Python's dict.get(key, default) applied to a JSON value of
unknown shape: on a JSON object it returns the member or the default; on
anything else Python raises AttributeError (get is not an attribute of
lists, strings, numbers, ...), modelled by Except.error. -/
def dictGet (j : Json) (key : String) (dflt : Json) : Except String Json :=
  match j with
  | .obj members => .ok ((members.lookup key).getD dflt)
  | _ => .error "AttributeError"

/-- Hosted-provider clients (clients.py lines 27-61, 63-89, 92-125) hold
a model name and an API key read from the environment at construction. -/
structure OpenAIClient where
  api_key : String
  model : String

/-- Model of OpenAIClient.scan_code (clients.py lines 39-60).  The whole
try block — the chat-completion call and the extraction of
choices[0].message.content — is one interaction with the external
provider library, abstracted as providerCall: Except.ok is the extracted
content, Except.error any exception raised inside the try block.  The
except clause catches every Exception (line 59), so the function itself
never raises: its result is always Except.ok. -/
def OpenAIClient.scan_code (_c : OpenAIClient)
    (providerCall : Except String String) : Except String String :=
  match providerCall with
  | .ok content => .ok content
  | .error e => .ok ("Error occurred: " ++ e)

/-- Google Generative AI client (clients.py lines 63-89). -/
structure GoogleClient where
  api_key : String
  model : String

/-- Model of GoogleClient.scan_code (clients.py lines 75-89); same
catch-all structure as the OpenAI variant. -/
def GoogleClient.scan_code (_c : GoogleClient)
    (providerCall : Except String String) : Except String String :=
  match providerCall with
  | .ok content => .ok content
  | .error e => .ok ("Error occurred: " ++ e)

/-- Groq client (clients.py lines 92-125). -/
structure GroqClient where
  api_key : String
  model : String

/-- Model of GroqClient.scan_code (clients.py lines 106-125); same
catch-all structure as the OpenAI variant. -/
def GroqClient.scan_code (_c : GroqClient)
    (providerCall : Except String String) : Except String String :=
  match providerCall with
  | .ok content => .ok content
  | .error e => .ok ("Error occurred: " ++ e)

/-- Custom AI client configuration (clients.py lines 131-139).  Python's
token default is None; the port is formatted into the URL as given. -/
structure CustomAIClient where
  model : String
  host : String
  port : String
  token : Option String := none
  endpoint : String := "/api/v1/scan"

/-- Model of the base_url attribute (clients.py line 139). -/
def CustomAIClient.base_url (c : CustomAIClient) : String :=
  c.host ++ ":" ++ c.port ++ c.endpoint

/-- Persona text prepended to the code summary in the custom client's
user message (clients.py lines 150-158), with the source's exact
line breaks and indentation. -/
def customPrompt : String :=
  "You are an experienced application security specialist, entrusted with the task of \n                    carefully reviewing the following code for potential security vulnerabilities. Your objective \n                    is to conduct a comprehensive analysis, identifying any weak points that could be exploited \n                    by malicious actors. Once identified, provide clear and actionable recommendations to \n                    mitigate these risks and strengthen the overall security posture of the application. \n                    Focus on issues that could compromise the integrity, confidentiality, or availability \n                    of the system, and ensure that your suggestions are practical and implementable. \n                    Here is the code you need to review:\n                    "

/-- Model of the headers dict built at clients.py line 144: the
Authorization key is always present; its value is the bearer string when
the token is truthy and the empty string otherwise. -/
def CustomAIClient.headers (c : CustomAIClient) : List (String × String) :=
  [("Authorization",
    if truthyStr c.token then "Bearer " ++ c.token.getD "" else "")]

/-- Model of the payload dict built at clients.py lines 145-162. -/
def CustomAIClient.payload (c : CustomAIClient) (code_summary : String) : Json :=
  .obj [("model", .str c.model),
        ("messages", .arr [.obj [("role", .str "user"),
                                 ("content", .str (customPrompt ++ code_summary))]])]

/-- One outbound HTTP request as issued by requests.post at clients.py
lines 164-166. -/
structure HttpRequest where
  url : String
  payload : Json
  headers : List (String × String)
  timeout : Nat

/-- Outcome of the requests.post call together with raise_for_status and
response.json(): `requestException` covers every
requests.exceptions.RequestException (connection failures, timeouts, the
HTTPError from raise_for_status, and the JSON decode error raised by
response.json(), all subclasses of RequestException); `response body`
is a successful status with body parsed as JSON. -/
inductive HttpOutcome where
  | requestException (msg : String)
  | response (body : Json)

/-- Request value sent by CustomAIClient.scan_code for a given code
summary (clients.py lines 144-166). -/
def CustomAIClient.request (c : CustomAIClient) (code_summary : String) :
    HttpRequest :=
  { url := c.base_url
    payload := c.payload code_summary
    headers := c.headers
    timeout := 120 }

/-- Model of CustomAIClient.scan_code (clients.py lines 141-174), as a
function of the transport behaviour net.  A RequestException is caught
(line 173) and converted to text; on a successful response the chained
.get calls follow Python semantics (dictGet), so an AttributeError
raised when the body or its message member is not a JSON object escapes
the function (Except.error), since only RequestException is caught. -/
def CustomAIClient.scan_code (c : CustomAIClient)
    (net : HttpRequest → HttpOutcome) (code_summary : String) :
    Except String Json :=
  match net (c.request code_summary) with
  | .requestException msg =>
    .ok (.str ("Error occurred while connecting to the server: " ++ msg))
  | .response body =>
    match dictGet body "message" (.obj []) with
    | .error e => .error e
    | .ok message =>
      match dictGet message "content" (.str "No response content.") with
      | .error e => .error e
      | .ok content => .ok content

/-! ## Concrete instances used by witnesses and counterexamples -/

/-- File system with a single regular file whose read raises a decode
error after a successful open. -/
def fsDecodeFail : String → FileStatus :=
  fun p => if p = "repo/bad.py" then .readError else .notFile

/-- File system with two readable files around one whose read raises. -/
def fsMixed : String → FileStatus :=
  fun p =>
    if p = "a.py" then .ok "x=1"
    else if p = "bad.py" then .readError
    else if p = "b.py" then .ok "y=2"
    else .notFile

/-- Environment whose directory is not a git repository and whose PR
fetch yields no files. -/
def sampleEnv : ScanEnv :=
  { fs := fun _ => FileStatus.notFile
    gitRevParse := .calledProcessError 128
    gitDiff := .output ""
    prFetch := .ok []
    scan_code := fun s => s }

/-- Custom client with a configured token. -/
def sampleCustomClient : CustomAIClient :=
  { model := "m", host := "http://localhost", port := "8000", token := some "tok" }

/-- Custom client with no token configured (Python default None). -/
def noTokenClient : CustomAIClient :=
  { model := "m", host := "http://h", port := "1" }

/-- Transport that answers every request with a 2xx whose JSON body is
an array, not an object. -/
def netArrayBody : HttpRequest → HttpOutcome :=
  fun _ => .response (.arr [])

/-- Transport that fails every request with a RequestException. -/
def netDown : HttpRequest → HttpOutcome :=
  fun _ => .requestException "timeout"

/-- Transport whose response body carries a message member that is a
string, not an object. -/
def netStrMessage : HttpRequest → HttpOutcome :=
  fun _ => .response (.obj [("message", .str "hi")])

/-- Transport whose response body is well-formed. -/
def netGoodBody : HttpRequest → HttpOutcome :=
  fun _ => .response (.obj [("message", .obj [("content", .str "all clear")])])

/-! ## Helper lemmas for the File Reader fold -/

/-- Running the loop body from accumulator acc appends to acc exactly
what the loop body produces from the empty accumulator. -/
theorem processFile_append (fs : String → FileStatus) (acc path : String) :
    processFile fs acc path = acc ++ processFile fs "" path := by
  cases h : fs path <;> simp [processFile, h, String.append_assoc]

/-- The File Reader fold from any accumulator equals that accumulator
followed by the fold from the empty accumulator. -/
theorem read_files_foldl_append (fs : String → FileStatus) (paths : List String) :
    ∀ acc : String, paths.foldl (processFile fs) acc =
      acc ++ paths.foldl (processFile fs) "" := by
  induction paths with
  | nil => intro acc; simp [List.foldl]
  | cons p ps ih =>
    intro acc
    simp only [List.foldl]
    rw [ih (processFile fs acc p), ih (processFile fs "" p),
        processFile_append fs acc p, String.append_assoc]

/-! ## Claims -/

/-- C1: the claim states that a file whose read fails with a decode or
I/O error is entirely absent from the summary — no header line naming it
and none of its content.  The code appends the header line before
calling read (scanner.py lines 64-65), so when the read raises, the
header naming the file stays in the returned summary: on a list holding
one such file the result is exactly that file's header line. -/
theorem C1_read_failure_header_retained :
    read_files_and_generate_summary fsDecodeFail ["repo/bad.py"] =
      "\n\nFile: bad.py\n" := by
  rfl

/-- C2: the claim states that the summary is exactly the concatenation
of one section per readable regular file.  On a list whose middle file
raises during read, the result also carries that file's header line, so
it differs from the concatenation of the two qualifying sections. -/
theorem C2_summary_is_not_section_concatenation :
    read_files_and_generate_summary fsMixed ["a.py", "bad.py", "b.py"] =
      "\n\nFile: a.py\nx=1" ++ "\n\nFile: bad.py\n" ++ "\n\nFile: b.py\ny=2" ∧
    read_files_and_generate_summary fsMixed ["a.py", "bad.py", "b.py"] ≠
      ("\n\nFile: a.py\n" ++ "x=1") ++ ("\n\nFile: b.py\n" ++ "y=2") :=
  ⟨rfl, by decide⟩

/-- C3 counterexample: the claim states scan_code never raises for any
backend variant.  The custom variant catches only RequestException, so
when the transport succeeds but the response body is a JSON array, the
chained .get raises AttributeError, which escapes scan_code. -/
theorem C3_counterexample_custom_scan_code_raises :
    CustomAIClient.scan_code sampleCustomClient netArrayBody "code" =
      .error "AttributeError" := by
  rfl

/-- C3 amended: each hosted variant converts any exception of the
provider call into the text "Error occurred: {message}" and always
returns normally; the custom variant converts any transport-level
failure into "Error occurred while connecting to the server: {message}".
The custom variant, however, is not raise-free in general (see the
counterexample). -/
theorem C3_error_conversion :
    (∀ (c : OpenAIClient) (e : String),
       c.scan_code (.error e) = .ok ("Error occurred: " ++ e)) ∧
    (∀ (c : GoogleClient) (e : String),
       c.scan_code (.error e) = .ok ("Error occurred: " ++ e)) ∧
    (∀ (c : GroqClient) (e : String),
       c.scan_code (.error e) = .ok ("Error occurred: " ++ e)) ∧
    (∀ (c : OpenAIClient) (r : Except String String), ∃ s, c.scan_code r = .ok s) ∧
    (∀ (c : GoogleClient) (r : Except String String), ∃ s, c.scan_code r = .ok s) ∧
    (∀ (c : GroqClient) (r : Except String String), ∃ s, c.scan_code r = .ok s) ∧
    (∀ (c : CustomAIClient) (net : HttpRequest → HttpOutcome) (cs msg : String),
       net (c.request cs) = .requestException msg →
       c.scan_code net cs =
         .ok (.str ("Error occurred while connecting to the server: " ++ msg))) := by
  refine ⟨fun c e => rfl, fun c e => rfl, fun c e => rfl, ?_, ?_, ?_, ?_⟩
  · intro c r
    cases r with
    | ok s => exact ⟨s, rfl⟩
    | error e => exact ⟨"Error occurred: " ++ e, rfl⟩
  · intro c r
    cases r with
    | ok s => exact ⟨s, rfl⟩
    | error e => exact ⟨"Error occurred: " ++ e, rfl⟩
  · intro c r
    cases r with
    | ok s => exact ⟨s, rfl⟩
    | error e => exact ⟨"Error occurred: " ++ e, rfl⟩
  · intro c net cs msg h
    unfold CustomAIClient.scan_code
    rw [h]

/-- C3 witness: the transport-failure conversion at a concrete client,
transport and summary. -/
theorem C3_error_conversion_witness :
    CustomAIClient.scan_code sampleCustomClient netDown "x" =
      .ok (.str ("Error occurred while connecting to the server: " ++ "timeout")) :=
  C3_error_conversion.2.2.2.2.2.2 sampleCustomClient netDown "x" "timeout" rfl

/-- C4 counterexample: the claim states no Authorization header is sent
when no token is configured, and that "No response content." is
returned whenever the message.content path is absent.  The code always
puts the Authorization key in the headers dict, with the empty string
as value when the token is falsy; and when the message member is
present but not an object the chained .get raises instead of returning
the fallback text. -/
theorem C4_counterexample_header_and_extraction :
    (CustomAIClient.request noTokenClient "c").headers =
      [("Authorization", "")] ∧
    CustomAIClient.scan_code sampleCustomClient netStrMessage "c" =
      .error "AttributeError" :=
  ⟨rfl, rfl⟩

/-- C4 amended: scan_code sends one POST to host:port{endpoint} with the
claimed JSON payload and a 120-unit timeout; the Authorization header is
always present, valued "Bearer {token}" when a token is configured and
the empty string otherwise; on a successful response whose body is a
JSON object, the result is message.content when the message member is an
object containing content, and "No response content." when the message
member is absent or is an object without content. -/
theorem C4_request_shape (c : CustomAIClient) (cs : String) :
    (c.request cs).url = c.host ++ ":" ++ c.port ++ c.endpoint ∧
    (c.request cs).timeout = 120 ∧
    (c.request cs).payload =
      .obj [("model", .str c.model),
            ("messages", .arr [.obj [("role", .str "user"),
                                     ("content", .str (customPrompt ++ cs))]])] ∧
    (c.request cs).headers =
      [("Authorization",
        if truthyStr c.token then "Bearer " ++ c.token.getD "" else "")] ∧
    (∀ (net : HttpRequest → HttpOutcome) (members : List (String × Json)),
       net (c.request cs) = HttpOutcome.response (.obj members) →
       (members.lookup "message" = none →
         c.scan_code net cs = .ok (.str "No response content.")) ∧
       (∀ mmembers : List (String × Json),
         members.lookup "message" = some (.obj mmembers) →
         c.scan_code net cs =
           .ok ((mmembers.lookup "content").getD (.str "No response content.")))) := by
  refine ⟨rfl, rfl, rfl, rfl, ?_⟩
  intro net members h
  constructor
  · intro hm
    unfold CustomAIClient.scan_code
    rw [h]
    simp [dictGet, hm]
  · intro mmembers hm
    unfold CustomAIClient.scan_code
    rw [h]
    simp [dictGet, hm]

/-- C4 witness: the well-formed-body extraction at a concrete client. -/
theorem C4_request_shape_witness :
    CustomAIClient.scan_code sampleCustomClient netGoodBody "c" =
      .ok (.str "all clear") := by
  have h := ((C4_request_shape sampleCustomClient "c").2.2.2.2 netGoodBody
    [("message", Json.obj [("content", Json.str "all clear")])] rfl).2
    [("content", Json.str "all clear")] rfl
  simpa using h

/-- C5 counterexample: the claim states is_git_repo returns false on any
failure of the rev-parse invocation, including when the invocation
itself cannot run, and never raises.  Only CalledProcessError is caught,
so when the invocation cannot run the OSError escapes. -/
theorem C5_counterexample_oserror_propagates :
    is_git_repo (.osError "git executable not found") =
      .error "git executable not found" := by
  rfl

/-- C5 amended: is_git_repo returns false whenever the rev-parse
invocation runs and exits nonzero (including "not a repository"), and
true when it exits zero; but an exception from an invocation that cannot
run at all propagates. -/
theorem C5_failed_rev_parse_returns_false :
    (∀ returncode : Int, is_git_repo (.calledProcessError returncode) = .ok false) ∧
    (∀ out : String, is_git_repo (.output out) = .ok true) :=
  ⟨fun _ => rfl, fun _ => rfl⟩

/-- C6: with truthy repo and pr_number but a falsy token, scan_changes
returns the credential message, for every environment — in particular
for every GitHub-fetch outcome and every backend behaviour, so neither
is consulted. -/
theorem C6_missing_token_soft_fail (env : ScanEnv) (directory : String)
    (repo : Option String) (pr_number : Option Int) (github_token : Option String)
    (hrepo : truthyStr repo = true) (hpr : truthyInt pr_number = true)
    (htok : truthyStr github_token = false) :
    scan_changes env directory repo pr_number github_token =
      .ok "GitHub token is required for scanning PR changes." := by
  simp [scan_changes, resolve_changed_files, usesPrStrategy,
        fetch_changed_files_from_pr, hrepo, hpr, htok]

/-- C6 witness: the credential soft-fail at a concrete environment. -/
theorem C6_missing_token_soft_fail_witness :
    scan_changes sampleEnv "d" (some "owner/repo") (some 1) none =
      .ok "GitHub token is required for scanning PR changes." :=
  C6_missing_token_soft_fail sampleEnv "d" (some "owner/repo") (some 1) none
    rfl rfl rfl

/-- C7: with no repository/PR parameters and a directory whose rev-parse
check says it is not a repository, scan_changes returns exactly the
repository message, for every environment — in particular for every
backend behaviour, so the backend is not consulted. -/
theorem C7_invalid_repo_message (env : ScanEnv) (directory : String)
    (github_token : Option String)
    (hgit : is_git_repo env.gitRevParse = .ok false) :
    scan_changes env directory none none github_token =
      .ok "Directory is not a valid Git repository." := by
  simp [scan_changes, resolve_changed_files, usesPrStrategy, truthyStr,
        fetch_changed_files_from_repo, hgit]

/-- C7 witness: the not-a-repository soft-fail at a concrete
environment. -/
theorem C7_invalid_repo_message_witness :
    scan_changes sampleEnv "d" none none none =
      .ok "Directory is not a valid Git repository." :=
  C7_invalid_repo_message sampleEnv "d" none rfl

/-- C8: whenever changed-file resolution succeeds with the empty list,
scan_changes returns exactly the no-changes message; the backend
behaviour env.scan_code is unconstrained, so no backend call decides the
result. -/
theorem C8_empty_changes_message (env : ScanEnv) (directory : String)
    (repo : Option String) (pr_number : Option Int) (github_token : Option String)
    (hres : resolve_changed_files env repo pr_number github_token = .ok []) :
    scan_changes env directory repo pr_number github_token =
      .ok "No changes detected in the directory." := by
  unfold scan_changes
  rw [hres]
  rfl

/-- C8 witness: the no-changes message at a concrete environment whose
PR reports no changed files. -/
theorem C8_empty_changes_message_witness :
    scan_changes sampleEnv "d" (some "owner/repo") (some 1) (some "t") =
      .ok "No changes detected in the directory." :=
  C8_empty_changes_message sampleEnv "d" (some "owner/repo") (some 1) (some "t") rfl

/-- C9: strategy selection is by Python truthiness — an empty repo
string, a zero pr_number or an absent pr_number all select the local
strategy (scan_changes then behaves exactly as with no parameters), and
a non-empty repo with a nonzero pr_number selects the PR strategy. -/
theorem C9_truthiness_selects_strategy :
    (∀ pr_number : Option Int, usesPrStrategy (some "") pr_number = false) ∧
    (∀ repo : Option String, usesPrStrategy repo (some 0) = false) ∧
    (∀ repo : Option String, usesPrStrategy repo none = false) ∧
    (∀ (s : String) (n : Int), s ≠ "" → n ≠ 0 →
       usesPrStrategy (some s) (some n) = true) ∧
    (∀ (env : ScanEnv) (directory : String) (pr_number : Option Int)
       (github_token : Option String),
       scan_changes env directory (some "") pr_number github_token =
         scan_changes env directory none none github_token) ∧
    (∀ (env : ScanEnv) (directory : String) (repo : Option String)
       (github_token : Option String),
       scan_changes env directory repo (some 0) github_token =
         scan_changes env directory none none github_token) := by
  refine ⟨?_, ?_, ?_, ?_, ?_, ?_⟩
  · intro pr_number
    simp [usesPrStrategy, truthyStr]
  · intro repo
    simp [usesPrStrategy, truthyInt]
  · intro repo
    simp [usesPrStrategy, truthyInt]
  · intro s n hs hn
    simp [usesPrStrategy, truthyStr, truthyInt, bne_iff_ne]
    exact ⟨hs, hn⟩
  · intro env directory pr_number github_token
    simp [scan_changes, resolve_changed_files, usesPrStrategy, truthyStr]
  · intro env directory repo github_token
    simp [scan_changes, resolve_changed_files, usesPrStrategy, truthyInt]

/-- C9 witness: a non-empty repo with a nonzero pr_number selects the PR
strategy. -/
theorem C9_truthiness_selects_strategy_witness :
    usesPrStrategy (some "owner/repo") (some 7) = true :=
  C9_truthiness_selects_strategy.2.2.2.1 "owner/repo" 7 (by decide) (by decide)

/-- C10: with the file system fixed, the File Reader is a monoid
homomorphism from path lists under append to strings under
concatenation: it maps list append to string append and the empty list
to the empty string. -/
theorem C10_summary_monoid_hom :
    (∀ (fs : String → FileStatus) (xs ys : List String),
       read_files_and_generate_summary fs (xs ++ ys) =
         read_files_and_generate_summary fs xs ++
           read_files_and_generate_summary fs ys) ∧
    (∀ fs : String → FileStatus, read_files_and_generate_summary fs [] = "") := by
  constructor
  · intro fs xs ys
    unfold read_files_and_generate_summary
    rw [List.foldl_append, read_files_foldl_append]
  · intro fs
    rfl

end GuardAI
